import Mathlib

/-!
Verification of `swervedrive/icr/timescaler.py`.

The module is embedded shallowly over `ℚ`: every bound pair
(`beta_dot_bounds`, `beta_2dot_bounds`, `phi_2dot_bounds`) is a pair
`(lo, hi) : ℚ × ℚ` standing for the two-element Python list, indexed by
`elem`.  The mutable instance attributes `s_dot` / `s_2dot`, which the
constructor does not set and `compute_scaling_parameters` later assigns,
are modelled as an `Option (ℚ × ℚ)` field of an explicit state record;
reading them before assignment (Python `AttributeError`) is the `none`
branch of `scale_motion`.

`math.isclose(x, 0, abs_tol=1e-2)` with the default relative tolerance
`1e-9` holds exactly when `|x| ≤ max(1e-9 * |x|, 1e-2)`, which for the
reachable case `|x| ≤ 1e-2` is `|x| ≤ 1/100`; `isclose0` embeds that.
-/

/-- in_range from timescaler.py: `rng[0] <= value <= rng[1]`. -/
def in_range (value : ℚ) (rng : ℚ × ℚ) : Bool :=
  decide (rng.1 ≤ value) && decide (value ≤ rng.2)

/-- math.isclose(x, 0, abs_tol=1e-2): `|x| ≤ 1/100`. -/
def isclose0 (x : ℚ) : Bool :=
  decide (|x| ≤ 1 / 100)

/-- Indexing a two-element bound list: index 0 is the minimum bound,
index 1 the maximum bound. -/
def elem (rng : ℚ × ℚ) (i : Nat) : ℚ :=
  if i = 0 then rng.1 else rng.2

/-- The three bound lists stored by TimeScaler.__init__. -/
structure TimeScaler where
  beta_dot_b : ℚ × ℚ
  beta_2dot_b : ℚ × ℚ
  phi_2dot_b : ℚ × ℚ

/-- TimeScaler.compute_scaling_bounds, translated line for line.
Returns `(ds_lower, ds_upper, d2s_lower, d2s_upper)`. -/
def compute_scaling_bounds (ts : TimeScaler) (dbeta d2beta dphi_dot : ℚ) :
    ℚ × ℚ × ℚ × ℚ :=
  if in_range dbeta ts.beta_dot_b && in_range d2beta ts.beta_2dot_b &&
      in_range dphi_dot ts.phi_2dot_b then
    (0, 1, 0, 1)
  else
    let ignore_beta := isclose0 dbeta
    let ignore_phi := isclose0 dphi_dot
    let ds_lower : ℚ := 0
    let ds_upper : ℚ := 1
    let d2s_lower : ℚ := 0
    let d2s_upper : ℚ := 1
    let p : ℚ × ℚ :=
      if !ignore_beta then
        let lu : Nat × Nat := if dbeta < 0 then (1, 0) else (0, 1)
        (max ds_lower (elem ts.beta_2dot_b lu.1 / dbeta),
         min ds_upper (elem ts.beta_2dot_b lu.2 / dbeta))
      else (ds_lower, ds_upper)
    let q : ℚ × ℚ :=
      if !ignore_phi then
        let lu : Nat × Nat := if dphi_dot < 0 then (1, 0) else (0, 1)
        (max p.1 (elem ts.phi_2dot_b lu.1 / dphi_dot),
         min p.2 (elem ts.phi_2dot_b lu.2 / dphi_dot))
      else p
    let r : ℚ × ℚ :=
      if !ignore_beta then
        let s_dot := q.2
        let lu : Nat × Nat := if dbeta < 0 then (1, 0) else (0, 1)
        (max d2s_lower ((elem ts.beta_2dot_b lu.1 - d2beta * s_dot ^ 2) / dbeta),
         min d2s_upper ((elem ts.beta_2dot_b lu.2 - d2beta * s_dot ^ 2) / dbeta))
      else (d2s_lower, d2s_upper)
    (q.1, q.2, r.1, r.2)

/-- Full instance state: the constructor-set bound lists plus the
optional `(s_dot, s_2dot)` attributes. -/
structure TimeScalerState where
  conf : TimeScaler
  params : Option (ℚ × ℚ)

/-- TimeScaler.__init__: stores the three bound lists and nothing else;
`s_dot` / `s_2dot` do not exist yet. -/
def mk_time_scaler (beta_dot_bounds beta_2dot_bounds phi_2dot_bounds : ℚ × ℚ) :
    TimeScalerState :=
  ⟨⟨beta_dot_bounds, beta_2dot_bounds, phi_2dot_bounds⟩, none⟩

/-- TimeScaler.compute_scaling_parameters: stores
`s_dot = ds_upper`, `s_2dot = d2s_upper`. -/
def compute_scaling_parameters (st : TimeScalerState)
    (ds_lower ds_upper d2s_lower d2s_upper : ℚ) : TimeScalerState :=
  { st with params := some (ds_upper, d2s_upper) }

/-- TimeScaler.scale_motion: reads the stored `s_dot` / `s_2dot`. -/
def scale_motion (st : TimeScalerState) (dbeta d2beta dphi_dot : ℚ) :
    Option (ℚ × ℚ × ℚ) :=
  match st.params with
  | none => none
  | some (s_dot, s_2dot) =>
    some (dbeta * s_dot, d2beta * s_dot ^ 2 + dbeta * s_2dot,
          dphi_dot * s_dot)

/-- The first-order tightening pattern of the spec: select bound-array
indices `(lower, upper) = (1, 0)` when the dividing command `v` is
negative, `(0, 1)` otherwise, then tighten `lo` to
`max lo (b[lower] / v)` and `hi` to `min hi (b[upper] / v)`. -/
def spec_tighten_first (b : ℚ × ℚ) (v lo hi : ℚ) : ℚ × ℚ :=
  let lu : Nat × Nat := if v < 0 then (1, 0) else (0, 1)
  (max lo (elem b lu.1 / v), min hi (elem b lu.2 / v))

/-- The second-order tightening pattern of the spec: same index
selection, working point `s_dot`, tightening `(0, 1)` to
`(max 0 ((b[lower] - d2 * s_dot^2) / v), min 1 ((b[upper] - d2 * s_dot^2) / v))`. -/
def spec_tighten_second (b : ℚ × ℚ) (v d2 s_dot : ℚ) : ℚ × ℚ :=
  let lu : Nat × Nat := if v < 0 then (1, 0) else (0, 1)
  (max 0 ((elem b lu.1 - d2 * s_dot ^ 2) / v),
   min 1 ((elem b lu.2 - d2 * s_dot ^ 2) / v))

/-- Closed form of `compute_scaling_bounds` off the fast path: the two
first-order tightening steps followed by the second-order step at
working point `q.2`. -/
lemma csb_closed_form (ts : TimeScaler) (dbeta d2beta dphi_dot : ℚ)
    (hfast : (in_range dbeta ts.beta_dot_b && in_range d2beta ts.beta_2dot_b &&
      in_range dphi_dot ts.phi_2dot_b) = false) :
    compute_scaling_bounds ts dbeta d2beta dphi_dot =
      (let p : ℚ × ℚ := if isclose0 dbeta then (0, 1)
        else spec_tighten_first ts.beta_2dot_b dbeta 0 1
      let q : ℚ × ℚ := if isclose0 dphi_dot then p
        else spec_tighten_first ts.phi_2dot_b dphi_dot p.1 p.2
      let r : ℚ × ℚ := if isclose0 dbeta then (0, 1)
        else spec_tighten_second ts.beta_2dot_b dbeta d2beta q.2
      (q.1, q.2, r.1, r.2)) := by
  simp only [compute_scaling_bounds, hfast, Bool.false_eq_true, if_false,
    spec_tighten_first, spec_tighten_second]
  cases h1 : isclose0 dbeta <;> cases h2 : isclose0 dphi_dot <;>
    simp [h1, h2]

/-- Configuration `tsB` widens `tsA`: each lower bound is no larger and
each upper bound no smaller. -/
def widens (tsA tsB : TimeScaler) : Prop :=
  tsB.beta_dot_b.1 ≤ tsA.beta_dot_b.1 ∧ tsA.beta_dot_b.2 ≤ tsB.beta_dot_b.2 ∧
  tsB.beta_2dot_b.1 ≤ tsA.beta_2dot_b.1 ∧ tsA.beta_2dot_b.2 ≤ tsB.beta_2dot_b.2 ∧
  tsB.phi_2dot_b.1 ≤ tsA.phi_2dot_b.1 ∧ tsA.phi_2dot_b.2 ≤ tsB.phi_2dot_b.2

/-- Each bound list of `ts` is a proper interval `lo ≤ hi`. -/
def proper_bounds (ts : TimeScaler) : Prop :=
  ts.beta_dot_b.1 ≤ ts.beta_dot_b.2 ∧ ts.beta_2dot_b.1 ≤ ts.beta_2dot_b.2 ∧
  ts.phi_2dot_b.1 ≤ ts.phi_2dot_b.2

lemma div_mono_same (a b v : ℚ) (h : a ≤ b) (hv : 0 ≤ v) : a / v ≤ b / v := by
  rcases eq_or_lt_of_le hv with hv0 | hvpos
  · simp [← hv0]
  · exact (div_le_div_iff_of_pos_right hvpos).mpr h

lemma div_anti_same (a b v : ℚ) (h : a ≤ b) (hv : v ≤ 0) : b / v ≤ a / v := by
  rcases eq_or_lt_of_le hv with hv0 | hvneg
  · simp [hv0]
  · exact (div_le_div_right_of_neg hvneg).mpr h

lemma spec_tighten_first_mono (bA bB : ℚ × ℚ) (v loA hiA loB hiB : ℚ)
    (hb1 : bB.1 ≤ bA.1) (hb2 : bA.2 ≤ bB.2)
    (hlo : loB ≤ loA) (hhi : hiA ≤ hiB) :
    (spec_tighten_first bB v loB hiB).1 ≤ (spec_tighten_first bA v loA hiA).1 ∧
    (spec_tighten_first bA v loA hiA).2 ≤ (spec_tighten_first bB v loB hiB).2 := by
  unfold spec_tighten_first elem
  rcases lt_or_ge v 0 with hv | hv
  · simp only [if_pos hv]
    exact ⟨max_le_max hlo (div_anti_same bA.2 bB.2 v hb2 hv.le),
           min_le_min hhi (div_anti_same bB.1 bA.1 v hb1 hv.le)⟩
  · simp only [if_neg (not_lt.mpr hv)]
    exact ⟨max_le_max hlo (div_mono_same bB.1 bA.1 v hb1 hv),
           min_le_min hhi (div_mono_same bA.2 bB.2 v hb2 hv)⟩

lemma spec_tighten_first_le (b : ℚ × ℚ) (v lo hi : ℚ) :
    lo ≤ (spec_tighten_first b v lo hi).1 ∧
    (spec_tighten_first b v lo hi).2 ≤ hi := by
  unfold spec_tighten_first
  exact ⟨le_max_left _ _, min_le_left _ _⟩

lemma spec_tighten_second_zero (b : ℚ × ℚ) (v s_dot : ℚ) :
    spec_tighten_second b v 0 s_dot = spec_tighten_first b v 0 1 := by
  unfold spec_tighten_second spec_tighten_first
  simp

lemma spec_tighten_second_le (b : ℚ × ℚ) (v d2 s_dot : ℚ) :
    0 ≤ (spec_tighten_second b v d2 s_dot).1 ∧
    (spec_tighten_second b v d2 s_dot).2 ≤ 1 := by
  unfold spec_tighten_second
  exact ⟨le_max_left _ _, min_le_left _ _⟩

lemma in_range_widen (x : ℚ) (bA bB : ℚ × ℚ) (h1 : bB.1 ≤ bA.1)
    (h2 : bA.2 ≤ bB.2) (hx : in_range x bA = true) : in_range x bB = true := by
  simp only [in_range, Bool.and_eq_true, decide_eq_true_eq] at hx ⊢
  exact ⟨h1.trans hx.1, hx.2.trans h2⟩

/-- The four components returned by `compute_scaling_bounds` satisfy
`0 ≤ ds_lower`, `ds_upper ≤ 1`, `0 ≤ d2s_lower`, `d2s_upper ≤ 1`. -/
lemma csb_unit_bounds (ts : TimeScaler) (dbeta d2beta dphi_dot : ℚ) :
    0 ≤ (compute_scaling_bounds ts dbeta d2beta dphi_dot).1 ∧
    (compute_scaling_bounds ts dbeta d2beta dphi_dot).2.1 ≤ 1 ∧
    0 ≤ (compute_scaling_bounds ts dbeta d2beta dphi_dot).2.2.1 ∧
    (compute_scaling_bounds ts dbeta d2beta dphi_dot).2.2.2 ≤ 1 := by
  cases hfast : (in_range dbeta ts.beta_dot_b && in_range d2beta ts.beta_2dot_b &&
      in_range dphi_dot ts.phi_2dot_b) with
  | true => simp [compute_scaling_bounds, hfast]
  | false =>
    rw [csb_closed_form ts dbeta d2beta dphi_dot hfast]
    simp only []
    cases h1 : isclose0 dbeta <;> cases h2 : isclose0 dphi_dot <;>
      simp only [h1, h2, if_true, if_false, Bool.false_eq_true]
    · exact ⟨le_trans (spec_tighten_first_le ts.beta_2dot_b dbeta 0 1).1
          (spec_tighten_first_le ts.phi_2dot_b dphi_dot _ _).1,
        le_trans (spec_tighten_first_le ts.phi_2dot_b dphi_dot _ _).2
          (spec_tighten_first_le ts.beta_2dot_b dbeta 0 1).2,
        (spec_tighten_second_le _ _ _ _).1,
        (spec_tighten_second_le _ _ _ _).2⟩
    · exact ⟨(spec_tighten_first_le _ _ 0 1).1,
        (spec_tighten_first_le _ _ 0 1).2,
        (spec_tighten_second_le _ _ _ _).1,
        (spec_tighten_second_le _ _ _ _).2⟩
    · refine ⟨?_, ?_, le_refl 0, le_refl 1⟩
      · exact le_trans (le_refl 0) (spec_tighten_first_le _ _ 0 1).1
      · exact (spec_tighten_first_le _ _ 0 1).2
    · exact ⟨le_refl 0, le_refl 1, le_refl 0, le_refl 1⟩

/-- C3: whenever dbeta lies within beta_dot_bounds, d2beta within
beta_2dot_bounds and dphi_dot within phi_2dot_bounds simultaneously
(inclusive membership), compute_scaling_bounds returns exactly
(0, 1, 0, 1). -/
theorem fast_path_identity (ts : TimeScaler) (dbeta d2beta dphi_dot : ℚ)
    (h1 : ts.beta_dot_b.1 ≤ dbeta ∧ dbeta ≤ ts.beta_dot_b.2)
    (h2 : ts.beta_2dot_b.1 ≤ d2beta ∧ d2beta ≤ ts.beta_2dot_b.2)
    (h3 : ts.phi_2dot_b.1 ≤ dphi_dot ∧ dphi_dot ≤ ts.phi_2dot_b.2) :
    compute_scaling_bounds ts dbeta d2beta dphi_dot = (0, 1, 0, 1) := by
  have hfast : (in_range dbeta ts.beta_dot_b && in_range d2beta ts.beta_2dot_b &&
      in_range dphi_dot ts.phi_2dot_b) = true := by
    simp only [in_range, Bool.and_eq_true, decide_eq_true_eq]
    exact ⟨⟨h1, h2⟩, h3⟩
  simp [compute_scaling_bounds, hfast]

/-- Witness for C3 at a concrete input. -/
theorem fast_path_identity_witness :
    compute_scaling_bounds ⟨(-1, 1), (-2, 2), (-3, 3)⟩ 0 0 0 = (0, 1, 0, 1) :=
  fast_path_identity ⟨(-1, 1), (-2, 2), (-3, 3)⟩ 0 0 0
    (by norm_num) (by norm_num) (by norm_num)

/-- C5: with stored parameters s_dot, s_2dot, scale_motion returns
exactly (dbeta * s_dot, d2beta * s_dot^2 + dbeta * s_2dot,
dphi_dot * s_dot); in particular for s_dot = 2, s_2dot = 1/2,
dbeta = 3, d2beta = 1, dphi_dot = 4 it returns (6, 11/2, 8). -/
theorem scale_motion_chain_rule :
    (∀ (st : TimeScalerState) (s_dot s_2dot dbeta d2beta dphi_dot : ℚ),
      st.params = some (s_dot, s_2dot) →
      scale_motion st dbeta d2beta dphi_dot =
        some (dbeta * s_dot, d2beta * s_dot ^ 2 + dbeta * s_2dot,
          dphi_dot * s_dot)) ∧
    scale_motion ⟨⟨(0, 0), (0, 0), (0, 0)⟩, some (2, 1/2)⟩ 3 1 4 =
      some (6, 11/2, 8) := by
  constructor
  · intro st s_dot s_2dot dbeta d2beta dphi_dot h
    simp [scale_motion, h]
  · norm_num [scale_motion]

/-- Witness for C5: the general formula applied at the concrete input. -/
theorem scale_motion_chain_rule_witness :
    scale_motion ⟨⟨(0, 0), (0, 0), (0, 0)⟩, some (2, 1/2)⟩ 3 1 4 =
      some (3 * 2, 1 * 2 ^ 2 + 3 * (1/2), 4 * 2) :=
  scale_motion_chain_rule.1 ⟨⟨(0, 0), (0, 0), (0, 0)⟩, some (2, 1/2)⟩
    2 (1/2) 3 1 4 rfl

/-- C6: under the precondition ds_lower ≤ ds_upper and
d2s_lower ≤ d2s_upper, compute_scaling_parameters stores exactly
(s_dot, s_2dot) = (ds_upper, d2s_upper), overwriting any previous
parameters, and a subsequent scale_motion call uses exactly these
stored values. -/
theorem scaling_parameters_pick_upper (st : TimeScalerState)
    (ds_lower ds_upper d2s_lower d2s_upper dbeta d2beta dphi_dot : ℚ)
    (hds : ds_lower ≤ ds_upper) (hd2s : d2s_lower ≤ d2s_upper) :
    (compute_scaling_parameters st ds_lower ds_upper d2s_lower d2s_upper).params =
      some (ds_upper, d2s_upper) ∧
    scale_motion (compute_scaling_parameters st ds_lower ds_upper d2s_lower d2s_upper)
        dbeta d2beta dphi_dot =
      some (dbeta * ds_upper, d2beta * ds_upper ^ 2 + dbeta * d2s_upper,
        dphi_dot * ds_upper) :=
  ⟨rfl, rfl⟩

/-- Witness for C6 at a concrete state with previously stored values. -/
theorem scaling_parameters_pick_upper_witness :
    (compute_scaling_parameters ⟨⟨(0, 0), (0, 0), (0, 0)⟩, some (7, 9)⟩
        0 (1/2) 0 (1/4)).params = some (1/2, 1/4) ∧
    scale_motion (compute_scaling_parameters ⟨⟨(0, 0), (0, 0), (0, 0)⟩, some (7, 9)⟩
        0 (1/2) 0 (1/4)) 1 1 1 =
      some (1 * (1/2), 1 * (1/2) ^ 2 + 1 * (1/4), 1 * (1/2)) :=
  scaling_parameters_pick_upper ⟨⟨(0, 0), (0, 0), (0, 0)⟩, some (7, 9)⟩
    0 (1/2) 0 (1/4) 1 1 1 (by norm_num) (by norm_num)

/-- C1: off the fast path with dbeta not ignored, the returned
(ds_lower, ds_upper) are obtained by the sign-selected max/min
tightening with beta_2dot_bounds divided by dbeta, followed, when
dphi_dot is not ignored, by the same pattern with phi_2dot_bounds and
the sign of dphi_dot; in particular for bounds (-1,1), (-2,2), (-3,3)
and sample dbeta = 4, d2beta = 0, dphi_dot = 0 the result has
ds_upper = 1/2 and ds_lower = 0. -/
theorem first_order_tightening :
    (∀ (ts : TimeScaler) (dbeta d2beta dphi_dot : ℚ),
      (in_range dbeta ts.beta_dot_b && in_range d2beta ts.beta_2dot_b &&
        in_range dphi_dot ts.phi_2dot_b) = false →
      isclose0 dbeta = false →
      ((compute_scaling_bounds ts dbeta d2beta dphi_dot).1,
       (compute_scaling_bounds ts dbeta d2beta dphi_dot).2.1) =
        (if isclose0 dphi_dot then
          spec_tighten_first ts.beta_2dot_b dbeta 0 1
        else
          spec_tighten_first ts.phi_2dot_b dphi_dot
            (spec_tighten_first ts.beta_2dot_b dbeta 0 1).1
            (spec_tighten_first ts.beta_2dot_b dbeta 0 1).2)) ∧
    ((compute_scaling_bounds ⟨(-1, 1), (-2, 2), (-3, 3)⟩ 4 0 0).2.1 = 1/2 ∧
     (compute_scaling_bounds ⟨(-1, 1), (-2, 2), (-3, 3)⟩ 4 0 0).1 = 0) := by
  refine ⟨?_, ?_, ?_⟩
  · intro ts dbeta d2beta dphi_dot hfast hb
    rw [csb_closed_form ts dbeta d2beta dphi_dot hfast]
    cases h2 : isclose0 dphi_dot <;> simp [hb, h2]
  · norm_num [compute_scaling_bounds, in_range, isclose0, elem]
  · norm_num [compute_scaling_bounds, in_range, isclose0, elem]

/-- Witness for C1: the general tightening formula applied at the
worked scenario of the spec. -/
theorem first_order_tightening_witness :
    ((compute_scaling_bounds ⟨(-1, 1), (-2, 2), (-3, 3)⟩ 4 0 0).1,
     (compute_scaling_bounds ⟨(-1, 1), (-2, 2), (-3, 3)⟩ 4 0 0).2.1) =
      (if isclose0 0 then
        spec_tighten_first (-2, 2) 4 0 1
      else
        spec_tighten_first (-3, 3) 0
          (spec_tighten_first (-2, 2) 4 0 1).1
          (spec_tighten_first (-2, 2) 4 0 1).2) :=
  first_order_tightening.1 ⟨(-1, 1), (-2, 2), (-3, 3)⟩ 4 0 0
    (by norm_num [in_range]) (by norm_num [isclose0])

/-- C2: off the fast path with dbeta not ignored, the returned
(d2s_lower, d2s_upper) are the sign-selected second-order tightening of
(0, 1) with beta_2dot_bounds at the working point s_dot equal to the
returned ds_upper; when dbeta is ignored, (d2s_lower, d2s_upper)
remain (0, 1). -/
theorem second_order_tightening :
    (∀ (ts : TimeScaler) (dbeta d2beta dphi_dot : ℚ),
      (in_range dbeta ts.beta_dot_b && in_range d2beta ts.beta_2dot_b &&
        in_range dphi_dot ts.phi_2dot_b) = false →
      isclose0 dbeta = false →
      ((compute_scaling_bounds ts dbeta d2beta dphi_dot).2.2.1,
       (compute_scaling_bounds ts dbeta d2beta dphi_dot).2.2.2) =
        spec_tighten_second ts.beta_2dot_b dbeta d2beta
          (compute_scaling_bounds ts dbeta d2beta dphi_dot).2.1) ∧
    (∀ (ts : TimeScaler) (dbeta d2beta dphi_dot : ℚ),
      isclose0 dbeta = true →
      ((compute_scaling_bounds ts dbeta d2beta dphi_dot).2.2.1,
       (compute_scaling_bounds ts dbeta d2beta dphi_dot).2.2.2) = (0, 1)) := by
  constructor
  · intro ts dbeta d2beta dphi_dot hfast hb
    rw [csb_closed_form ts dbeta d2beta dphi_dot hfast]
    cases h2 : isclose0 dphi_dot <;> simp [hb, h2]
  · intro ts dbeta d2beta dphi_dot hb
    cases hfast : (in_range dbeta ts.beta_dot_b && in_range d2beta ts.beta_2dot_b &&
        in_range dphi_dot ts.phi_2dot_b) with
    | true => simp [compute_scaling_bounds, hfast]
    | false =>
      rw [csb_closed_form ts dbeta d2beta dphi_dot hfast]
      cases h2 : isclose0 dphi_dot <;> simp [hb, h2]

/-- Witness for C2: the second-order formula applied at the worked
scenario of the spec. -/
theorem second_order_tightening_witness :
    ((compute_scaling_bounds ⟨(-1, 1), (-2, 2), (-3, 3)⟩ 4 0 0).2.2.1,
     (compute_scaling_bounds ⟨(-1, 1), (-2, 2), (-3, 3)⟩ 4 0 0).2.2.2) =
      spec_tighten_second (-2, 2) 4 0
        (compute_scaling_bounds ⟨(-1, 1), (-2, 2), (-3, 3)⟩ 4 0 0).2.1 :=
  second_order_tightening.1 ⟨(-1, 1), (-2, 2), (-3, 3)⟩ 4 0 0
    (by norm_num [in_range]) (by norm_num [isclose0])

/-- C4: a command component within 1/100 of zero is ignored: when dbeta
is ignored the returned (ds_lower, ds_upper) equal the phi-only
tightening of (0, 1), independent of dbeta and d2beta; symmetrically
when dphi_dot is ignored they equal the beta-only tightening; and when
both dbeta and dphi_dot are ignored, off the fast path the result is
the identity (0, 1, 0, 1) for every d2beta. -/
theorem degenerate_commands_ignored :
    (∀ (ts : TimeScaler) (dbeta d2beta dphi_dot : ℚ),
      (in_range dbeta ts.beta_dot_b && in_range d2beta ts.beta_2dot_b &&
        in_range dphi_dot ts.phi_2dot_b) = false →
      isclose0 dbeta = true →
      ((compute_scaling_bounds ts dbeta d2beta dphi_dot).1,
       (compute_scaling_bounds ts dbeta d2beta dphi_dot).2.1) =
        (if isclose0 dphi_dot then ((0 : ℚ), (1 : ℚ))
         else spec_tighten_first ts.phi_2dot_b dphi_dot 0 1)) ∧
    (∀ (ts : TimeScaler) (dbeta d2beta dphi_dot : ℚ),
      (in_range dbeta ts.beta_dot_b && in_range d2beta ts.beta_2dot_b &&
        in_range dphi_dot ts.phi_2dot_b) = false →
      isclose0 dphi_dot = true →
      ((compute_scaling_bounds ts dbeta d2beta dphi_dot).1,
       (compute_scaling_bounds ts dbeta d2beta dphi_dot).2.1) =
        (if isclose0 dbeta then ((0 : ℚ), (1 : ℚ))
         else spec_tighten_first ts.beta_2dot_b dbeta 0 1)) ∧
    (∀ (ts : TimeScaler) (dbeta d2beta dphi_dot : ℚ),
      (in_range dbeta ts.beta_dot_b && in_range d2beta ts.beta_2dot_b &&
        in_range dphi_dot ts.phi_2dot_b) = false →
      isclose0 dbeta = true → isclose0 dphi_dot = true →
      compute_scaling_bounds ts dbeta d2beta dphi_dot = (0, 1, 0, 1)) := by
  refine ⟨?_, ?_, ?_⟩
  · intro ts dbeta d2beta dphi_dot hfast hb
    rw [csb_closed_form ts dbeta d2beta dphi_dot hfast]
    cases h2 : isclose0 dphi_dot <;> simp [hb, h2]
  · intro ts dbeta d2beta dphi_dot hfast hp
    rw [csb_closed_form ts dbeta d2beta dphi_dot hfast]
    cases h1 : isclose0 dbeta <;> simp [h1, hp]
  · intro ts dbeta d2beta dphi_dot hfast hb hp
    rw [csb_closed_form ts dbeta d2beta dphi_dot hfast]
    simp [hb, hp]

/-- Witness for C4: both commands ignored, d2beta large, off the fast
path, result is the identity. -/
theorem degenerate_commands_ignored_witness :
    compute_scaling_bounds ⟨(-1, 1), (-2, 2), (-3, 3)⟩ 0 100 0 = (0, 1, 0, 1) :=
  degenerate_commands_ignored.2.2 ⟨(-1, 1), (-2, 2), (-3, 3)⟩ 0 100 0
    (by norm_num [in_range]) (by norm_num [isclose0]) (by norm_num [isclose0])

/-- C7: compute_scaling_bounds can return a crossed (empty) interval
and does so as-is, without raising, clamping or repairing: at this
input both returned intervals have lower bound strictly above the upper
bound. -/
theorem crossed_interval_returned :
    compute_scaling_bounds ⟨(-1/2, 1/2), (5, 6), (-3, 3)⟩ 1 0 0 = (5, 1, 5, 1) ∧
    (compute_scaling_bounds ⟨(-1/2, 1/2), (5, 6), (-3, 3)⟩ 1 0 0).2.1 <
      (compute_scaling_bounds ⟨(-1/2, 1/2), (5, 6), (-3, 3)⟩ 1 0 0).1 ∧
    (compute_scaling_bounds ⟨(-1/2, 1/2), (5, 6), (-3, 3)⟩ 1 0 0).2.2.2 <
      (compute_scaling_bounds ⟨(-1/2, 1/2), (5, 6), (-3, 3)⟩ 1 0 0).2.2.1 := by
  refine ⟨?_, ?_, ?_⟩ <;>
    norm_num [compute_scaling_bounds, in_range, isclose0, elem]

/-- C9: every result of compute_scaling_bounds satisfies
0 ≤ ds_lower, ds_upper ≤ 1, 0 ≤ d2s_lower and d2s_upper ≤ 1; hence
whenever the returned intervals are non-empty, the parameters stored by
compute_scaling_parameters lie in [0, 1]. -/
theorem scaling_bounds_within_unit (ts : TimeScaler)
    (dbeta d2beta dphi_dot : ℚ) :
    (0 ≤ (compute_scaling_bounds ts dbeta d2beta dphi_dot).1 ∧
     (compute_scaling_bounds ts dbeta d2beta dphi_dot).2.1 ≤ 1 ∧
     0 ≤ (compute_scaling_bounds ts dbeta d2beta dphi_dot).2.2.1 ∧
     (compute_scaling_bounds ts dbeta d2beta dphi_dot).2.2.2 ≤ 1) ∧
    (∀ st : TimeScalerState,
      (compute_scaling_bounds ts dbeta d2beta dphi_dot).1 ≤
        (compute_scaling_bounds ts dbeta d2beta dphi_dot).2.1 →
      (compute_scaling_bounds ts dbeta d2beta dphi_dot).2.2.1 ≤
        (compute_scaling_bounds ts dbeta d2beta dphi_dot).2.2.2 →
      ∃ s_dot s_2dot,
        (compute_scaling_parameters st
          (compute_scaling_bounds ts dbeta d2beta dphi_dot).1
          (compute_scaling_bounds ts dbeta d2beta dphi_dot).2.1
          (compute_scaling_bounds ts dbeta d2beta dphi_dot).2.2.1
          (compute_scaling_bounds ts dbeta d2beta dphi_dot).2.2.2).params =
          some (s_dot, s_2dot) ∧
        0 ≤ s_dot ∧ s_dot ≤ 1 ∧ 0 ≤ s_2dot ∧ s_2dot ≤ 1) := by
  obtain ⟨h1, h2, h3, h4⟩ := csb_unit_bounds ts dbeta d2beta dphi_dot
  refine ⟨⟨h1, h2, h3, h4⟩, ?_⟩
  intro st hds hd2s
  exact ⟨_, _, rfl, le_trans h1 hds, h2, le_trans h3 hd2s, h4⟩

/-- Witness for C9 at a concrete fast-path input. -/
theorem scaling_bounds_within_unit_witness :
    ∃ s_dot s_2dot,
      (compute_scaling_parameters (mk_time_scaler (-1, 1) (-1, 1) (-1, 1))
        (compute_scaling_bounds ⟨(-1, 1), (-1, 1), (-1, 1)⟩ 0 0 0).1
        (compute_scaling_bounds ⟨(-1, 1), (-1, 1), (-1, 1)⟩ 0 0 0).2.1
        (compute_scaling_bounds ⟨(-1, 1), (-1, 1), (-1, 1)⟩ 0 0 0).2.2.1
        (compute_scaling_bounds ⟨(-1, 1), (-1, 1), (-1, 1)⟩ 0 0 0).2.2.2).params =
        some (s_dot, s_2dot) ∧
      0 ≤ s_dot ∧ s_dot ≤ 1 ∧ 0 ≤ s_2dot ∧ s_2dot ≤ 1 :=
  (scaling_bounds_within_unit ⟨(-1, 1), (-1, 1), (-1, 1)⟩ 0 0 0).2
    (mk_time_scaler (-1, 1) (-1, 1) (-1, 1))
    (by norm_num [compute_scaling_bounds, in_range])
    (by norm_num [compute_scaling_bounds, in_range])

/-- C8 counterexample: widening only the beta acceleration bound from
(-1, 1/2) to (-1, 1), at the fixed sample dbeta = 1, d2beta = 1,
dphi_dot = 0, shrinks the returned d2s interval: original d2s_upper is
1/4 but the widened d2s_upper is 0, so the widened [d2s_lower,
d2s_upper] does not contain the original. -/
theorem widening_shrinks_d2s_counterexample :
    widens ⟨(-1/2, 1/2), (-1, 1/2), (-3, 3)⟩ ⟨(-1/2, 1/2), (-1, 1), (-3, 3)⟩ ∧
    proper_bounds ⟨(-1/2, 1/2), (-1, 1/2), (-3, 3)⟩ ∧
    proper_bounds ⟨(-1/2, 1/2), (-1, 1), (-3, 3)⟩ ∧
    compute_scaling_bounds ⟨(-1/2, 1/2), (-1, 1/2), (-3, 3)⟩ 1 1 0 =
      (0, 1/2, 0, 1/4) ∧
    compute_scaling_bounds ⟨(-1/2, 1/2), (-1, 1), (-3, 3)⟩ 1 1 0 =
      (0, 1, 0, 0) ∧
    ¬ ((compute_scaling_bounds ⟨(-1/2, 1/2), (-1, 1/2), (-3, 3)⟩ 1 1 0).2.2.2 ≤
       (compute_scaling_bounds ⟨(-1/2, 1/2), (-1, 1), (-3, 3)⟩ 1 1 0).2.2.2) := by
  refine ⟨?_, ?_, ?_, ?_, ?_, ?_⟩ <;>
    norm_num [widens, proper_bounds, compute_scaling_bounds, in_range,
      isclose0, elem]

/-- C8 (amended): widening the bounds, with the command sample held
fixed, never shrinks the returned [ds_lower, ds_upper]; the same holds
for [d2s_lower, d2s_upper] when d2beta = 0, but not in general, because
the second-order bound is evaluated at the working point
s_dot = ds_upper, which itself grows under widening. -/
theorem widening_monotone_amended (tsA tsB : TimeScaler)
    (dbeta d2beta dphi_dot : ℚ)
    (hw : widens tsA tsB) (hpA : proper_bounds tsA) (hpB : proper_bounds tsB) :
    ((compute_scaling_bounds tsB dbeta d2beta dphi_dot).1 ≤
       (compute_scaling_bounds tsA dbeta d2beta dphi_dot).1 ∧
     (compute_scaling_bounds tsA dbeta d2beta dphi_dot).2.1 ≤
       (compute_scaling_bounds tsB dbeta d2beta dphi_dot).2.1) ∧
    (d2beta = 0 →
     (compute_scaling_bounds tsB dbeta d2beta dphi_dot).2.2.1 ≤
       (compute_scaling_bounds tsA dbeta d2beta dphi_dot).2.2.1 ∧
     (compute_scaling_bounds tsA dbeta d2beta dphi_dot).2.2.2 ≤
       (compute_scaling_bounds tsB dbeta d2beta dphi_dot).2.2.2) := by
  obtain ⟨w1, w2, w3, w4, w5, w6⟩ := hw
  cases hfastA : (in_range dbeta tsA.beta_dot_b &&
      in_range d2beta tsA.beta_2dot_b && in_range dphi_dot tsA.phi_2dot_b) with
  | true =>
    have hfastB : (in_range dbeta tsB.beta_dot_b &&
        in_range d2beta tsB.beta_2dot_b &&
        in_range dphi_dot tsB.phi_2dot_b) = true := by
      simp only [Bool.and_eq_true] at hfastA ⊢
      exact ⟨⟨in_range_widen dbeta _ _ w1 w2 hfastA.1.1,
        in_range_widen d2beta _ _ w3 w4 hfastA.1.2⟩,
        in_range_widen dphi_dot _ _ w5 w6 hfastA.2⟩
    simp [compute_scaling_bounds, hfastA, hfastB]
  | false =>
    cases hfastB : (in_range dbeta tsB.beta_dot_b &&
        in_range d2beta tsB.beta_2dot_b &&
        in_range dphi_dot tsB.phi_2dot_b) with
    | true =>
      obtain ⟨h1, h2, h3, h4⟩ := csb_unit_bounds tsA dbeta d2beta dphi_dot
      rw [show compute_scaling_bounds tsB dbeta d2beta dphi_dot = (0, 1, 0, 1)
        from by simp [compute_scaling_bounds, hfastB]]
      exact ⟨⟨h1, h2⟩, fun _ => ⟨h3, h4⟩⟩
    | false =>
      rw [csb_closed_form tsA dbeta d2beta dphi_dot hfastA,
        csb_closed_form tsB dbeta d2beta dphi_dot hfastB]
      have hp := spec_tighten_first_mono tsA.beta_2dot_b tsB.beta_2dot_b dbeta
        0 1 0 1 w3 w4 le_rfl le_rfl
      cases h1 : isclose0 dbeta <;> cases h2 : isclose0 dphi_dot <;>
        simp only [h1, h2, Bool.false_eq_true, if_true, if_false]
      · have hq := spec_tighten_first_mono tsA.phi_2dot_b tsB.phi_2dot_b
          dphi_dot
          (spec_tighten_first tsA.beta_2dot_b dbeta 0 1).1
          (spec_tighten_first tsA.beta_2dot_b dbeta 0 1).2
          (spec_tighten_first tsB.beta_2dot_b dbeta 0 1).1
          (spec_tighten_first tsB.beta_2dot_b dbeta 0 1).2
          w5 w6 hp.1 hp.2
        refine ⟨⟨hq.1, hq.2⟩, ?_⟩
        rintro rfl
        rw [spec_tighten_second_zero, spec_tighten_second_zero]
        exact hp
      · refine ⟨⟨hp.1, hp.2⟩, ?_⟩
        rintro rfl
        rw [spec_tighten_second_zero, spec_tighten_second_zero]
        exact hp
      · have hq := spec_tighten_first_mono tsA.phi_2dot_b tsB.phi_2dot_b
          dphi_dot 0 1 0 1 w5 w6 le_rfl le_rfl
        exact ⟨⟨hq.1, hq.2⟩, fun _ => ⟨le_rfl, le_rfl⟩⟩
      · exact ⟨⟨le_rfl, le_rfl⟩, fun _ => ⟨le_rfl, le_rfl⟩⟩

/-- Witness for C8 (amended) at a concrete widening with d2beta = 0. -/
theorem widening_monotone_amended_witness :
    ((compute_scaling_bounds ⟨(-1/2, 1/2), (-1, 1), (-3, 3)⟩ 1 0 0).1 ≤
       (compute_scaling_bounds ⟨(-1/2, 1/2), (-1, 1/2), (-3, 3)⟩ 1 0 0).1 ∧
     (compute_scaling_bounds ⟨(-1/2, 1/2), (-1, 1/2), (-3, 3)⟩ 1 0 0).2.1 ≤
       (compute_scaling_bounds ⟨(-1/2, 1/2), (-1, 1), (-3, 3)⟩ 1 0 0).2.1) ∧
    ((0 : ℚ) = 0 →
     (compute_scaling_bounds ⟨(-1/2, 1/2), (-1, 1), (-3, 3)⟩ 1 0 0).2.2.1 ≤
       (compute_scaling_bounds ⟨(-1/2, 1/2), (-1, 1/2), (-3, 3)⟩ 1 0 0).2.2.1 ∧
     (compute_scaling_bounds ⟨(-1/2, 1/2), (-1, 1/2), (-3, 3)⟩ 1 0 0).2.2.2 ≤
       (compute_scaling_bounds ⟨(-1/2, 1/2), (-1, 1), (-3, 3)⟩ 1 0 0).2.2.2) :=
  widening_monotone_amended ⟨(-1/2, 1/2), (-1, 1/2), (-3, 3)⟩
    ⟨(-1/2, 1/2), (-1, 1), (-3, 3)⟩ 1 0 0
    (by norm_num [widens]) (by norm_num [proper_bounds])
    (by norm_num [proper_bounds])

/-- C10: scale_motion on a freshly constructed TimeScaler (the
constructor sets only the three bound lists, not s_dot / s_2dot) takes
the error branch, and in general the error branch is taken exactly when
no scaling parameters have been stored. -/
theorem scale_motion_fresh_errors :
    (∀ (beta_dot_bounds beta_2dot_bounds phi_2dot_bounds : ℚ × ℚ)
      (dbeta d2beta dphi_dot : ℚ),
      scale_motion (mk_time_scaler beta_dot_bounds beta_2dot_bounds phi_2dot_bounds)
        dbeta d2beta dphi_dot = none) ∧
    (∀ (st : TimeScalerState) (dbeta d2beta dphi_dot : ℚ),
      scale_motion st dbeta d2beta dphi_dot = none ↔ st.params = none) := by
  constructor
  · intro _ _ _ _ _ _
    rfl
  · intro st dbeta d2beta dphi_dot
    cases hp : st.params with
    | none => simp [scale_motion, hp]
    | some p =>
      cases p
      simp [scale_motion, hp]
